import Mathlib

/-!
Shallow embedding of the geonotify-service core: the check-location
coordinator (`internal/cases/location.go`), the webhook worker
(`internal/worker/webhook_worker.go`) and the incident store query
`ReadAllActive` (`internal/adapter/repo/postgres/incident.go`).

Float64 coordinates and distances are idealised as real numbers; Go `int`
fields are embedded as `Int`. Store, cache and queue calls are oracles: an
environment record fixes the outcome of each external call, and each
embedded operation returns its result together with the ordered list of
writes (coordinator) or issued calls (worker) it performs.
-/

namespace GeoNotify

open Classical Real

/-- `entity.Incident`: a danger zone (center, radius, activity flag). -/
structure Incident where
  id : Int
  name : String
  descr : String
  latitude : ℝ
  longitude : ℝ
  radius : ℝ
  isActive : Bool
  createdAt : Int
  updatedAt : Int

/-- `entity.Check` as built by `saveCheck` (id/createdAt are store-assigned). -/
structure Check where
  userID : String
  latitude : ℝ
  longitude : ℝ
  hasAlert : Bool

/-- The webhook payload built in `createWebhook`:
`{check_id, timestamp, incidents}` (JSON marshalling kept structural). -/
structure Payload where
  checkID : Int
  timestamp : Int
  incidents : List Incident

/-- `entity.Webhook`: an outbox row. -/
structure WebhookRow where
  id : Int
  checkID : Int
  state : String
  retryCnt : Int
  payload : Payload
  scheduledAt : Int

/-- The transient queue task `{webhook_id, check_id, payload}`. -/
structure QueueTask where
  webhookID : Int
  checkID : Int
  payload : Payload

/-! ### Go `strings.TrimSpace` -/

/-- Code points accepted by the Go predicate `unicode.IsSpace` (the Unicode
White_Space property, as trimmed by `strings.TrimSpace`). -/
def goSpaceCodes : List Nat :=
  [0x09, 0x0A, 0x0B, 0x0C, 0x0D, 0x20, 0x85, 0xA0, 0x1680,
   0x2000, 0x2001, 0x2002, 0x2003, 0x2004, 0x2005, 0x2006, 0x2007,
   0x2008, 0x2009, 0x200A, 0x2028, 0x2029, 0x202F, 0x205F, 0x3000]

/-- Whether a character counts as Unicode whitespace for Go. -/
def isGoSpace (c : Char) : Bool := goSpaceCodes.contains c.toNat

/-- `strings.TrimSpace` on the underlying character list. -/
def trimSpaceList (s : List Char) : List Char :=
  ((s.dropWhile isGoSpace).reverse.dropWhile isGoSpace).reverse

/-- Go `strings.TrimSpace`. -/
def trimSpace (s : String) : String := ⟨trimSpaceList s.data⟩

/-! ### Haversine distance (`isPointInRadius` in location.go) -/

/-- Go `math.Atan2` (quadrant-correct arctangent), idealised over ℝ;
the IEEE special cases (NaN, infinities, signed zero) are out of scope. -/
noncomputable def atan2 (y x : ℝ) : ℝ :=
  if 0 < x then arctan (y / x)
  else if x < 0 then
    (if 0 ≤ y then arctan (y / x) + π else arctan (y / x) - π)
  else
    (if 0 < y then π / 2 else if y < 0 then -(π / 2) else 0)

/-- Earth radius constant used by `isPointInRadius` (meters). -/
def earthRadius_m : ℝ := 6371000

/-- The haversine great-circle distance computed inside `isPointInRadius`. -/
noncomputable def haversineDist (lat1 lon1 lat2 lon2 : ℝ) : ℝ :=
  let lat1Rad := lat1 * π / 180
  let lon1Rad := lon1 * π / 180
  let lat2Rad := lat2 * π / 180
  let lon2Rad := lon2 * π / 180
  let dLat := lat2Rad - lat1Rad
  let dLon := lon2Rad - lon1Rad
  let a := sin (dLat / 2) * sin (dLat / 2) +
    cos lat1Rad * cos lat2Rad * sin (dLon / 2) * sin (dLon / 2)
  let c := 2 * atan2 (Real.sqrt a) (Real.sqrt (1 - a))
  earthRadius_m * c

/-- `isPointInRadius(lat1, lon1, lat2, lon2, radius)`:
`distance <= radius` (boundary inclusive). -/
def isPointInRadius (lat1 lon1 lat2 lon2 radius : ℝ) : Prop :=
  haversineDist lat1 lon1 lat2 lon2 ≤ radius

/-- `findMatchingIncidents`: the loop appending each incident whose center
is within its radius of the point, in input order. -/
noncomputable def findMatchingIncidents (lat lng : ℝ) :
    List Incident → List Incident
  | [] => []
  | z :: rest =>
    if isPointInRadius lat lng z.latitude z.longitude z.radius then
      z :: findMatchingIncidents lat lng rest
    else
      findMatchingIncidents lat lng rest

/-! ### Check-location coordinator (`LocationUseCaseImpl`) -/

/-- Outcomes of the external calls `CheckLocation` may make, fixed up
front.  `cacheGet = none` covers both a cache miss and a cache failure
(the code only tests `err == nil`); `storeList = none` is a DB failure;
`checkCreate`/`webhookCreate` carry the store-assigned id on success. -/
structure Env where
  now : Int
  cacheGet : Option (List Incident)
  storeList : Option (List Incident)
  cacheSetOk : Bool
  checkCreate : Option Int
  webhookCreate : Option Int
  queuePushOk : Bool

/-- A state change performed by the coordinator (successful writes only;
a failed external call changes no state). -/
inductive Action
  | cacheSet (key : String) (value : List Incident)
  | checkInsert (c : Check)
  | webhookInsert (w : WebhookRow)
  | queuePush (queue : String) (t : QueueTask)

/-- The errors `CheckLocation` can return (wrapping collapsed to kind). -/
inductive LocErr
  | userIdRequired
  | invalidCoordinates
  | activeIncidentsFailed
  | saveCheckFailed
  | webhookCreateFailed

/-- `getActiveIncidents`: cache hit short-circuits; otherwise the store is
asked and, on success, the result is written back to the cache (a failed
write-back is logged and ignored). -/
def getActiveIncidents (env : Env) :
    Except LocErr (List Incident) × List Action :=
  match env.cacheGet with
  | some cached => (.ok cached, [])
  | none =>
    match env.storeList with
    | none => (.error .activeIncidentsFailed, [])
    | some incidents =>
      if env.cacheSetOk then
        (.ok incidents, [.cacheSet "active_incidents:v1" incidents])
      else
        (.ok incidents, [])

/-- The outbox row built by `createWebhook` before insertion
(`state = "in progress"`, `retry_cnt = 0`, `scheduled_at = now`); the id
is assigned by the store on insert. -/
def mkWebhook (wid : Int) (now : Int) (checkID : Int)
    (incidents : List Incident) : WebhookRow :=
  { id := wid, checkID := checkID, state := "in progress", retryCnt := 0,
    payload := ⟨checkID, now, incidents⟩, scheduledAt := now }

/-- `createWebhook`: insert the outbox row, then push the task
`{webhook_id, check_id, payload}`; a failed push is logged and the
function still returns success. -/
def createWebhook (env : Env) (checkID : Int) (incidents : List Incident) :
    Except LocErr Unit × List Action :=
  match env.webhookCreate with
  | none => (.error .webhookCreateFailed, [])
  | some wid =>
    let w := mkWebhook wid env.now checkID incidents
    if env.queuePushOk then
      (.ok (), [.webhookInsert w,
        .queuePush "webhooks:queue" ⟨wid, checkID, w.payload⟩])
    else
      (.ok (), [.webhookInsert w])

/-- What `CheckLocation` hands back: the Go `(bool, []*entity.Incident,
error)` triple, plus the ordered state changes it performed. -/
structure CheckLocationOut where
  result : Except LocErr (Bool × List Incident)
  trace : List Action

/-- The body of `CheckLocation` after validation has passed. -/
noncomputable def checkLocationBody (env : Env) (userID : String)
    (lat lng : ℝ) : CheckLocationOut :=
  match getActiveIncidents env with
  | (.error e, tr) => ⟨.error e, tr⟩
  | (.ok zones, tr) =>
    let matching := findMatchingIncidents lat lng zones
    let hasAlert := decide (0 < matching.length)
    match env.checkCreate with
    | none => ⟨.error .saveCheckFailed, tr⟩
    | some checkID =>
      let c : Check := ⟨userID, lat, lng, hasAlert⟩
      if hasAlert then
        ⟨.ok (hasAlert, matching),
          tr ++ [.checkInsert c] ++ (createWebhook env checkID matching).2⟩
      else
        ⟨.ok (hasAlert, matching), tr ++ [.checkInsert c]⟩

/-- `CheckLocation(userID, lat, lng)`: validation, zone fetch, matching,
check persistence, webhook creation.  A `createWebhook` failure is logged
and does not change the returned triple. -/
noncomputable def CheckLocation (env : Env) (userID : String)
    (lat lng : ℝ) : CheckLocationOut :=
  if trimSpace userID = "" then
    ⟨.error .userIdRequired, []⟩
  else if lat < -90 ∨ lat > 90 ∨ lng < -180 ∨ lng > 180 then
    ⟨.error .invalidCoordinates, []⟩
  else
    checkLocationBody env userID lat lng

/-! ### Webhook worker (`WebhookWorker`) -/

/-- The outcome of one outbound HTTP attempt as the handler sees it. -/
inductive HttpOutcome
  | buildError
  | transportError
  | status (code : Int)

/-- Outcomes of the external calls made by the worker: whether the move to
`processing` succeeds, the outcome of the HTTP attempt, and whether the
state update of the retry transition succeeds (its failure aborts it
before the sleep and the republish). -/
structure WorkerEnv where
  processingUpdateOk : Bool
  outcome : HttpOutcome
  retryUpdateOk : Bool

/-- A call the worker issues against the outbox, the clock or the queue,
in program order.  `updateState`/`markDelivered` record the arguments
passed to the repository. -/
inductive WorkerCall
  | updateState (id : Int) (state : String) (retryCnt : Int)
  | markDelivered (id : Int)
  | sleep (delay : Int)
  | push (queue : String) (t : QueueTask)

/-- The task `handleRetry` republishes: `{webhook_id, check_id, payload}`. -/
def retryTask (wh : WebhookRow) : QueueTask :=
  ⟨wh.id, wh.checkID, wh.payload⟩

/-- `handleRetry`: at or above the ceiling, finalize as `failed` with the
retry count unchanged; below it, set `in progress` with the count bumped,
sleep `retryDelay`, republish.  A failed state update returns before the
sleep and the push. -/
def handleRetry (env : WorkerEnv) (maxRetries retryDelay : Int)
    (wh : WebhookRow) : List WorkerCall :=
  if maxRetries ≤ wh.retryCnt then
    [.updateState wh.id "failed" wh.retryCnt]
  else
    .updateState wh.id "in progress" (wh.retryCnt + 1) ::
      (if env.retryUpdateOk then
        [.sleep retryDelay, .push "webhooks:queue" (retryTask wh)]
      else [])

/-- Whether an HTTP outcome is a 2xx response. -/
def is2xx : HttpOutcome → Prop
  | .status code => 200 ≤ code ∧ code < 300
  | _ => False

/-- `sendWebhook`: move to `processing` (failure returns early), POST,
then mark delivered on 2xx or route every other outcome through
`handleRetry`. -/
noncomputable def sendWebhook (env : WorkerEnv) (maxRetries retryDelay : Int)
    (wh : WebhookRow) : List WorkerCall :=
  .updateState wh.id "processing" wh.retryCnt ::
    (if env.processingUpdateOk then
      match env.outcome with
      | .buildError => handleRetry env maxRetries retryDelay wh
      | .transportError => handleRetry env maxRetries retryDelay wh
      | .status code =>
        if 200 ≤ code ∧ code < 300 then [.markDelivered wh.id]
        else handleRetry env maxRetries retryDelay wh
    else [])

/-- Modelled from the spec: the Postgres `WebhookRepo` implementing
`update_state` and `mark_delivered` is not under src (only the port
interface is); §4.5 has `update_state(id, state, retry_cnt)` write the new
state and retry counter, and `mark_delivered(id)` set `state = delivered`.
Effect of one issued call on a row (other-row calls leave it unchanged). -/
def applyCall (wh : WebhookRow) : WorkerCall → WebhookRow
  | .updateState id s rc =>
    if id = wh.id then { wh with state := s, retryCnt := rc } else wh
  | .markDelivered id =>
    if id = wh.id then { wh with state := "delivered" } else wh
  | _ => wh

/-- The outbox-entry well-formedness predicate of the spec: one of the
four states, retry count within `[0, MaxRetries]`. -/
def WFState (maxRetries : Int) (wh : WebhookRow) : Prop :=
  wh.state ∈ ["in progress", "processing", "delivered", "failed"] ∧
    0 ≤ wh.retryCnt ∧ wh.retryCnt ≤ maxRetries

/-! ### Incident store: `ReadAllActive` (postgres/incident.go) -/

/-- A row of the `incidents` table: the entity plus the soft-delete
timestamp (`deleted_at`, NULLable). -/
structure StoredIncident where
  incident : Incident
  deletedAt : Option Int

/-- The columns of the `incidents` table, from the migration. -/
def incidentsTableColumns : List String :=
  ["id", "name", "descr", "latitude", "longitude", "radius_m",
   "is_active", "created_at", "updated_at", "deleted_at"]

/-- The column list of the SELECT in `ReadAllActive`, verbatim from the
source (note the last entry). -/
def readAllActiveColumns : List String :=
  ["id", "name", "descr", "latitude", "longitude", "radius_m",
   "is_active", "created_at", "ipdated_at"]

/-- Insertion of a row into a list sorted by `updated_at` descending. -/
def insertByUpdatedAtDesc (r : StoredIncident) :
    List StoredIncident → List StoredIncident
  | [] => [r]
  | x :: xs =>
    if x.incident.updatedAt ≤ r.incident.updatedAt then r :: x :: xs
    else x :: insertByUpdatedAtDesc r xs

/-- Sort by `updated_at` descending (the ORDER BY of the query). -/
def sortByUpdatedAtDesc (rows : List StoredIncident) : List StoredIncident :=
  rows.foldr insertByUpdatedAtDesc []

/-- One SQL failure kind: the query references a column the table does not
have, which Postgres rejects for every execution of the statement. -/
inductive SqlError
  | undefinedColumn

/-- `ReadAllActive` over a table state: the query filters
`is_active = true AND deleted_at IS NULL` and orders by `updated_at`
descending, but only executes if every selected column exists in the
table schema; otherwise the statement fails as a whole. -/
def ReadAllActive (table : List StoredIncident) :
    Except SqlError (List Incident) :=
  if readAllActiveColumns.all (fun c => incidentsTableColumns.contains c) then
    .ok ((sortByUpdatedAtDesc
      (table.filter (fun r => r.incident.isActive && r.deletedAt.isNone))).map
        (fun r => r.incident))
  else
    .error .undefinedColumn

/-! ## Theorems -/

/-! ### Matcher lemmas -/

theorem findMatching_eq_filter (lat lng : ℝ) (zones : List Incident) :
    findMatchingIncidents lat lng zones = zones.filter
      (fun z => decide (isPointInRadius lat lng z.latitude z.longitude z.radius)) := by
  induction zones with
  | nil => simp [findMatchingIncidents]
  | cons z rest ih =>
    by_cases h : isPointInRadius lat lng z.latitude z.longitude z.radius
    · simp [findMatchingIncidents, h, ih, List.filter_cons]
    · simp [findMatchingIncidents, h, ih, List.filter_cons]

theorem mem_findMatching (lat lng : ℝ) (zones : List Incident) (z : Incident) :
    z ∈ findMatchingIncidents lat lng zones ↔
      z ∈ zones ∧ isPointInRadius lat lng z.latitude z.longitude z.radius := by
  rw [findMatching_eq_filter]
  simp [List.mem_filter]

theorem findMatching_sublist (lat lng : ℝ) (zones : List Incident) :
    (findMatchingIncidents lat lng zones).Sublist zones := by
  rw [findMatching_eq_filter]
  exact List.filter_sublist zones

/-- C3: the matcher is the order-preserving filter of the input zone list
keeping exactly the zones whose haversine distance (Earth radius
6,371,000 m) from the query point to the zone center is at most the
zone radius; the boundary `distance = radius` counts as a hit because
the comparison is `≤`. -/
theorem matcher_filters_by_haversine (lat lng : ℝ) (zones : List Incident) :
    (findMatchingIncidents lat lng zones = zones.filter
      (fun z => decide (haversineDist lat lng z.latitude z.longitude ≤ z.radius)))
    ∧ (findMatchingIncidents lat lng zones).Sublist zones
    ∧ ∀ z, z ∈ findMatchingIncidents lat lng zones ↔
        z ∈ zones ∧ haversineDist lat lng z.latitude z.longitude ≤ z.radius := by
  refine ⟨findMatching_eq_filter lat lng zones, findMatching_sublist lat lng zones, ?_⟩
  intro z
  exact mem_findMatching lat lng zones z

/-- C9: every execution of `ReadAllActive` fails — the SELECT references
the column `ipdated_at`, which the `incidents` table does not have, so
the statement is rejected regardless of the table contents. -/
theorem readAllActive_always_errors (table : List StoredIncident) :
    ReadAllActive table = Except.error SqlError.undefinedColumn := by
  rfl

/-! ### Worker theorems -/

/-- A sample outbox row used by concrete witnesses. -/
def whSample : WebhookRow :=
  { id := 7, checkID := 3, state := "in progress", retryCnt := 0,
    payload := ⟨3, 0, []⟩, scheduledAt := 0 }

/-- A sample outbox row sitting at the retry ceiling. -/
def whSampleMax : WebhookRow :=
  { id := 8, checkID := 4, state := "in progress", retryCnt := 3,
    payload := ⟨4, 0, []⟩, scheduledAt := 0 }

/-- C2: the retry transition.  At or above the ceiling the only call is
the move to `failed` with the retry count unchanged and nothing is
republished; below it the state is set to `in progress` with the count
bumped by one, then the handler sleeps RetryDelay and republishes the
task `{webhook_id, check_id, payload}`. -/
theorem handleRetry_transition (env : WorkerEnv) (maxRetries retryDelay : Int)
    (wh : WebhookRow) (h : env.retryUpdateOk = true) :
    handleRetry env maxRetries retryDelay wh =
      if maxRetries ≤ wh.retryCnt then
        [WorkerCall.updateState wh.id "failed" wh.retryCnt]
      else
        [WorkerCall.updateState wh.id "in progress" (wh.retryCnt + 1),
         WorkerCall.sleep retryDelay,
         WorkerCall.push "webhooks:queue" ⟨wh.id, wh.checkID, wh.payload⟩] := by
  by_cases hm : maxRetries ≤ wh.retryCnt
  · simp [handleRetry, hm]
  · simp [handleRetry, hm, h, retryTask]

theorem handleRetry_transition_witness :
    handleRetry ⟨true, HttpOutcome.buildError, true⟩ 3 1 whSample =
      [WorkerCall.updateState 7 "in progress" 1,
       WorkerCall.sleep 1,
       WorkerCall.push "webhooks:queue" ⟨7, 3, whSample.payload⟩] ∧
    handleRetry ⟨true, HttpOutcome.buildError, true⟩ 3 1 whSampleMax =
      [WorkerCall.updateState 8 "failed" 3] := by
  have h1 := handleRetry_transition ⟨true, HttpOutcome.buildError, true⟩ 3 1 whSample rfl
  have h2 := handleRetry_transition ⟨true, HttpOutcome.buildError, true⟩ 3 1 whSampleMax rfl
  norm_num [whSample, whSampleMax] at h1 h2
  exact ⟨h1, h2⟩

/-- C6: on a delivery attempt whose move to `processing` succeeded, the
entry is marked delivered exactly when the HTTP status is in
`[200, 300)`; every other outcome (request-build error, transport error,
non-2xx status) routes into the retry transition and never calls
mark-delivered. -/
theorem sendWebhook_delivered_iff (env : WorkerEnv)
    (maxRetries retryDelay : Int) (wh : WebhookRow) :
    (WorkerCall.markDelivered wh.id ∈ sendWebhook env maxRetries retryDelay wh ↔
      env.processingUpdateOk = true ∧ is2xx env.outcome)
    ∧ (env.processingUpdateOk = true → ¬ is2xx env.outcome →
        sendWebhook env maxRetries retryDelay wh =
          WorkerCall.updateState wh.id "processing" wh.retryCnt ::
            handleRetry env maxRetries retryDelay wh) := by
  have hret : ∀ q t, WorkerCall.markDelivered wh.id ∉
      handleRetry ⟨q, env.outcome, t⟩ maxRetries retryDelay wh := by
    intro q t
    by_cases hm : maxRetries ≤ wh.retryCnt <;>
      cases t <;> simp [handleRetry, hm]
  have hret' : WorkerCall.markDelivered wh.id ∉
      handleRetry env maxRetries retryDelay wh := by
    have := hret env.processingUpdateOk env.retryUpdateOk
    by_cases hm : maxRetries ≤ wh.retryCnt <;>
      cases hr : env.retryUpdateOk <;> simp [handleRetry, hm, hr] at this ⊢
  constructor
  · cases hp : env.processingUpdateOk
    · simp [sendWebhook, hp]
    · cases ho : env.outcome with
      | buildError => simp [sendWebhook, hp, ho, is2xx, hret']
      | transportError => simp [sendWebhook, hp, ho, is2xx, hret']
      | status code =>
        by_cases h2 : 200 ≤ code ∧ code < 300
        · simp [sendWebhook, hp, ho, is2xx, h2]
        · simp [sendWebhook, hp, ho, is2xx, h2, hret']
  · intro hp hn
    cases ho : env.outcome with
    | buildError => simp [sendWebhook, hp, ho]
    | transportError => simp [sendWebhook, hp, ho]
    | status code =>
      have h2 : ¬ (200 ≤ code ∧ code < 300) := by
        rw [ho] at hn
        simpa [is2xx] using hn
      simp [sendWebhook, hp, ho, h2]

theorem sendWebhook_delivered_iff_witness :
    sendWebhook ⟨true, HttpOutcome.status 500, true⟩ 3 1 whSample =
      WorkerCall.updateState whSample.id "processing" whSample.retryCnt ::
        handleRetry ⟨true, HttpOutcome.status 500, true⟩ 3 1 whSample :=
  (sendWebhook_delivered_iff ⟨true, HttpOutcome.status 500, true⟩ 3 1 whSample).2
    rfl (by simp [is2xx])

/-- Every row update issued by `handleRetry` keeps the row well-formed. -/
theorem handleRetry_preserves_wf (env : WorkerEnv) (maxRetries retryDelay : Int)
    (wh : WebhookRow) (hwf : WFState maxRetries wh) :
    ∀ c ∈ handleRetry env maxRetries retryDelay wh,
      WFState maxRetries (applyCall wh c) := by
  obtain ⟨hstate, hge, hle⟩ := hwf
  intro c hc
  by_cases hm : maxRetries ≤ wh.retryCnt
  · simp [handleRetry, hm] at hc
    subst hc
    exact ⟨by simp [applyCall], by simp [applyCall]; omega, by simp [applyCall]; omega⟩
  · cases hr : env.retryUpdateOk <;> simp [handleRetry, hm, hr] at hc
    · subst hc
      exact ⟨by simp [applyCall], by simp [applyCall]; omega, by simp [applyCall]; omega⟩
    · rcases hc with hc | hc | hc <;> subst hc
      · exact ⟨by simp [applyCall], by simp [applyCall]; omega,
          by simp [applyCall]; omega⟩
      · exact ⟨hstate, hge, hle⟩
      · exact ⟨hstate, hge, hle⟩

/-- C5: outbox-entry well-formedness (state among the four values,
retry count in `[0, MaxRetries]`) holds for the row `createWebhook`
inserts (`in progress`, retry count 0) and is preserved by every row
write a delivery attempt issues: the move to `processing`, both branches
of the retry transition, and mark-delivered. -/
theorem outbox_wf_preserved (env : WorkerEnv) (maxRetries retryDelay : Int)
    (wid now checkID : Int) (zones : List Incident) (wh : WebhookRow)
    (hmax : 0 ≤ maxRetries) (hwf : WFState maxRetries wh) :
    WFState maxRetries (mkWebhook wid now checkID zones)
    ∧ ∀ c ∈ sendWebhook env maxRetries retryDelay wh,
        WFState maxRetries (applyCall wh c) := by
  obtain ⟨hstate, hge, hle⟩ := hwf
  refine ⟨⟨by simp [mkWebhook], by simp [mkWebhook], by simpa [mkWebhook] using hmax⟩, ?_⟩
  intro c hc
  have hproc : WFState maxRetries
      (applyCall wh (WorkerCall.updateState wh.id "processing" wh.retryCnt)) := by
    exact ⟨by simp [applyCall], by simp [applyCall]; omega, by simp [applyCall]; omega⟩
  cases hp : env.processingUpdateOk
  · simp [sendWebhook, hp] at hc
    subst hc
    exact hproc
  · cases ho : env.outcome with
    | buildError =>
      simp [sendWebhook, hp, ho] at hc
      rcases hc with hc | hc
      · subst hc; exact hproc
      · exact handleRetry_preserves_wf env maxRetries retryDelay wh
          ⟨hstate, hge, hle⟩ c hc
    | transportError =>
      simp [sendWebhook, hp, ho] at hc
      rcases hc with hc | hc
      · subst hc; exact hproc
      · exact handleRetry_preserves_wf env maxRetries retryDelay wh
          ⟨hstate, hge, hle⟩ c hc
    | status code =>
      by_cases h2 : 200 ≤ code ∧ code < 300
      · simp [sendWebhook, hp, ho, h2] at hc
        rcases hc with hc | hc <;> subst hc
        · exact hproc
        · exact ⟨by simp [applyCall], by simp [applyCall]; omega,
            by simp [applyCall]; omega⟩
      · simp [sendWebhook, hp, ho, h2] at hc
        rcases hc with hc | hc
        · subst hc; exact hproc
        · exact handleRetry_preserves_wf env maxRetries retryDelay wh
            ⟨hstate, hge, hle⟩ c hc

theorem outbox_wf_preserved_witness :
    WFState 3 (mkWebhook 7 0 3 [])
    ∧ ∀ c ∈ sendWebhook ⟨true, HttpOutcome.status 500, true⟩ 3 1 whSample,
        WFState 3 (applyCall whSample c) :=
  outbox_wf_preserved ⟨true, HttpOutcome.status 500, true⟩ 3 1 7 0 3 [] whSample
    (by norm_num)
    ⟨by simp [whSample], by simp [whSample], by simp [whSample]⟩

/-! ### Coordinator theorems -/

/-- A sample zone centered at the origin with a 100 m radius. -/
def zSample : Incident :=
  { id := 1, name := "Center", descr := "", latitude := 0, longitude := 0,
    radius := 100, isActive := true, createdAt := 0, updatedAt := 0 }

/-- An environment whose cache holds the sample zone. -/
def envHit : Env :=
  { now := 0, cacheGet := some [zSample], storeList := none,
    cacheSetOk := true, checkCreate := some 1, webhookCreate := none,
    queuePushOk := false }

/-- An environment with a cache miss and the sample zone in the store. -/
def envMiss : Env :=
  { now := 0, cacheGet := none, storeList := some [zSample],
    cacheSetOk := false, checkCreate := some 1, webhookCreate := none,
    queuePushOk := false }

/-- An environment whose cache holds an empty zone list. -/
def envEmpty : Env :=
  { now := 0, cacheGet := some [], storeList := none, cacheSetOk := true,
    checkCreate := some 1, webhookCreate := none, queuePushOk := false }

/-- C8: the get-or-load of the active-zone set returns the cached list on
a hit; on a miss (or any cache-get failure) it returns the
result from the store, store failure being the only failure; and the returned value does
not depend on whether the cache write-back succeeds. -/
theorem cache_get_or_load (env : Env) :
    (∀ l, env.cacheGet = some l → getActiveIncidents env = (Except.ok l, []))
    ∧ (env.cacheGet = none →
        (getActiveIncidents env).1 =
          (match env.storeList with
           | some l => Except.ok l
           | none => Except.error LocErr.activeIncidentsFailed))
    ∧ (∀ b, (getActiveIncidents { env with cacheSetOk := b }).1 =
        (getActiveIncidents env).1) := by
  refine ⟨?_, ?_, ?_⟩
  · intro l hl
    simp [getActiveIncidents, hl]
  · intro hn
    cases hs : env.storeList with
    | none => simp [getActiveIncidents, hn, hs]
    | some l =>
      cases hset : env.cacheSetOk <;> simp [getActiveIncidents, hn, hs, hset]
  · intro b
    cases hc : env.cacheGet with
    | some l => simp [getActiveIncidents, hc]
    | none =>
      cases hs : env.storeList with
      | none => simp [getActiveIncidents, hc, hs]
      | some l =>
        cases b <;> cases hset : env.cacheSetOk <;>
          simp [getActiveIncidents, hc, hs, hset]

theorem cache_get_or_load_witness :
    getActiveIncidents envHit = (Except.ok [zSample], []) ∧
    (getActiveIncidents envMiss).1 = Except.ok [zSample] := by
  constructor
  · exact (cache_get_or_load envHit).1 [zSample] rfl
  · have h := (cache_get_or_load envMiss).2.1 rfl
    simpa [envMiss] using h

/-- `getActiveIncidents` can only fail with the store-failure error. -/
theorem getActive_error_kind (env : Env) (e : LocErr)
    (h : (getActiveIncidents env).1 = Except.error e) :
    e = LocErr.activeIncidentsFailed := by
  cases hc : env.cacheGet with
  | some l => simp [getActiveIncidents, hc] at h
  | none =>
    cases hs : env.storeList with
    | none =>
      simp [getActiveIncidents, hc, hs] at h
      exact h.symm
    | some l =>
      cases hset : env.cacheSetOk <;> simp [getActiveIncidents, hc, hs, hset] at h

/-- The trace of `getActiveIncidents` contains only cache writes. -/
theorem getActive_trace_actions (env : Env) (a : Action)
    (ha : a ∈ (getActiveIncidents env).2) :
    ∃ k v, a = Action.cacheSet k v := by
  cases hc : env.cacheGet with
  | some l => simp [getActiveIncidents, hc] at ha
  | none =>
    cases hs : env.storeList with
    | none => simp [getActiveIncidents, hc, hs] at ha
    | some l =>
      cases hset : env.cacheSetOk <;>
        simp [getActiveIncidents, hc, hs, hset] at ha
      exact ⟨_, _, ha⟩

/-- `createWebhook` never inserts a check row. -/
theorem createWebhook_no_checkInsert (env : Env) (cid : Int)
    (m : List Incident) (c : Check) :
    Action.checkInsert c ∉ (createWebhook env cid m).2 := by
  cases hw : env.webhookCreate with
  | none => simp [createWebhook, hw]
  | some wid => cases hq : env.queuePushOk <;> simp [createWebhook, hw, hq]

/-- After validation, the result can only be a store failure, a check-save
failure, or success — never a validation error. -/
theorem checkLocationBody_result_ne (env : Env) (uid : String) (lat lng : ℝ) :
    (checkLocationBody env uid lat lng).result ≠ Except.error LocErr.userIdRequired ∧
    (checkLocationBody env uid lat lng).result ≠ Except.error LocErr.invalidCoordinates := by
  rcases hg : getActiveIncidents env with ⟨res, tr⟩
  cases res with
  | error e =>
    have he : e = LocErr.activeIncidentsFailed := by
      apply getActive_error_kind env e
      rw [hg]
    subst he
    constructor <;> simp [checkLocationBody, hg]
  | ok zones =>
    cases hcc : env.checkCreate with
    | none => constructor <;> simp [checkLocationBody, hg, hcc]
    | some cid =>
      cases ha : decide (0 < (findMatchingIncidents lat lng zones).length) <;>
        constructor <;> simp [checkLocationBody, hg, hcc, ha]

/-- C4: `CheckLocation` returns the user-id error exactly when the user id
trims to the empty string, and the invalid-coordinates error exactly
when, with a non-empty user id, the latitude leaves `[-90, 90]` or the
longitude leaves `[-180, 180]` — so latitude exactly ±90 and longitude
exactly ±180 are accepted past validation. -/
theorem checkLocation_validation (env : Env) (uid : String) (lat lng : ℝ) :
    ((CheckLocation env uid lat lng).result = Except.error LocErr.userIdRequired ↔
      trimSpace uid = "")
    ∧ ((CheckLocation env uid lat lng).result = Except.error LocErr.invalidCoordinates ↔
      (¬ trimSpace uid = "" ∧ (lat < -90 ∨ lat > 90 ∨ lng < -180 ∨ lng > 180))) := by
  by_cases h1 : trimSpace uid = ""
  · constructor <;> simp [CheckLocation, h1]
  · by_cases h2 : lat < -90 ∨ lat > 90 ∨ lng < -180 ∨ lng > 180
    · constructor <;> simp [CheckLocation, h1, h2]
    · have hb := checkLocationBody_result_ne env uid lat lng
      constructor <;> simp [CheckLocation, h1, h2, hb.1, hb.2]

/-- C10: an input rejected by validation produces the validation error and
an empty write trace — no check row, no outbox row, no queue task, no
cache write. -/
theorem validation_rejects_without_effects (env : Env) (uid : String)
    (lat lng : ℝ)
    (h : trimSpace uid = "" ∨ lat < -90 ∨ lat > 90 ∨ lng < -180 ∨ lng > 180) :
    (CheckLocation env uid lat lng).trace = [] ∧
      ((CheckLocation env uid lat lng).result = Except.error LocErr.userIdRequired ∨
       (CheckLocation env uid lat lng).result = Except.error LocErr.invalidCoordinates) := by
  by_cases h1 : trimSpace uid = ""
  · simp [CheckLocation, h1]
  · have h2 : lat < -90 ∨ lat > 90 ∨ lng < -180 ∨ lng > 180 := h.resolve_left h1
    simp [CheckLocation, h1, h2]

theorem validation_rejects_without_effects_witness :
    (CheckLocation envHit "   " 0 0).trace = [] ∧
      ((CheckLocation envHit "   " 0 0).result = Except.error LocErr.userIdRequired ∨
       (CheckLocation envHit "   " 0 0).result = Except.error LocErr.invalidCoordinates) :=
  validation_rejects_without_effects envHit "   " 0 0 (Or.inl (by decide))

/-- Some zone of the list matches iff the matcher output is non-empty. -/
theorem exists_zone_iff_matching_nonempty (lat lng : ℝ) (zones : List Incident) :
    (∃ z ∈ zones, haversineDist lat lng z.latitude z.longitude ≤ z.radius) ↔
      0 < (findMatchingIncidents lat lng zones).length := by
  rw [List.length_pos_iff_exists_mem]
  constructor
  · rintro ⟨z, hz, hd⟩
    exact ⟨z, (mem_findMatching lat lng zones z).2 ⟨hz, hd⟩⟩
  · rintro ⟨z, hz⟩
    obtain ⟨hmem, hd⟩ := (mem_findMatching lat lng zones z).1 hz
    exact ⟨z, hmem, hd⟩

/-- C1: every check row `CheckLocation` writes carries
`has_alert = (matcher result non-empty)`, i.e. its flag is true exactly
when some zone of the active set used for the call contains the point
within haversine distance of its radius. -/
theorem check_persisted_hasAlert (env : Env) (uid : String) (lat lng : ℝ)
    (zones : List Incident) (c : Check)
    (hz : (getActiveIncidents env).1 = Except.ok zones)
    (hc : Action.checkInsert c ∈ (CheckLocation env uid lat lng).trace) :
    c.hasAlert = decide (0 < (findMatchingIncidents lat lng zones).length)
    ∧ (c.hasAlert = true ↔
        ∃ z ∈ zones, haversineDist lat lng z.latitude z.longitude ≤ z.radius) := by
  by_cases h1 : trimSpace uid = ""
  · simp [CheckLocation, h1] at hc
  · by_cases h2 : lat < -90 ∨ lat > 90 ∨ lng < -180 ∨ lng > 180
    · simp [CheckLocation, h1, h2] at hc
    · simp only [CheckLocation, if_neg h1, if_neg h2] at hc
      rcases hg : getActiveIncidents env with ⟨res, tr⟩
      rw [hg] at hz
      simp at hz
      subst hz
      have htr : ∀ a ∈ tr, ∃ k v, a = Action.cacheSet k v := by
        intro a ha
        apply getActive_trace_actions env a
        rw [hg]
        exact ha
      simp only [checkLocationBody, hg] at hc
      cases hcc : env.checkCreate with
      | none =>
        rw [hcc] at hc
        simp at hc
        obtain ⟨k, v, habs⟩ := htr _ hc
        cases habs
      | some cid =>
        rw [hcc] at hc
        cases ha : decide (0 < (findMatchingIncidents lat lng zones).length) with
        | false =>
          simp [ha] at hc
          rcases hc with hc | hc
          · obtain ⟨k, v, habs⟩ := htr _ hc
            cases habs
          · subst hc
            refine ⟨rfl, ?_⟩
            rw [exists_zone_iff_matching_nonempty]
            simp
            have hn := of_decide_eq_false ha
            rw [List.length_pos_iff_ne_nil] at hn
            simpa using hn
        | true =>
          simp [ha] at hc
          rcases hc with hc | hc | hc
          · obtain ⟨k, v, habs⟩ := htr _ hc
            cases habs
          · subst hc
            refine ⟨rfl, ?_⟩
            rw [exists_zone_iff_matching_nonempty]
            simp
            exact of_decide_eq_true ha
          · exact absurd hc (createWebhook_no_checkInsert env cid _ c)

theorem check_persisted_hasAlert_witness :
    ((⟨"u1", 0, 0, false⟩ : Check).hasAlert =
      decide (0 < (findMatchingIncidents 0 0 ([] : List Incident)).length))
    ∧ ((⟨"u1", 0, 0, false⟩ : Check).hasAlert = true ↔
        ∃ z ∈ ([] : List Incident),
          haversineDist 0 0 z.latitude z.longitude ≤ z.radius) := by
  have h1 : ¬ trimSpace "u1" = "" := by decide
  have h2 : ¬((0:ℝ) < -90 ∨ (0:ℝ) > 90 ∨ (0:ℝ) < -180 ∨ (0:ℝ) > 180) := by
    norm_num
  have htr : (CheckLocation envEmpty "u1" 0 0).trace =
      [Action.checkInsert ⟨"u1", 0, 0, false⟩] := by
    simp only [CheckLocation, if_neg h1, if_neg h2]
    simp [checkLocationBody, getActiveIncidents, envEmpty, findMatchingIncidents]
  exact check_persisted_hasAlert envEmpty "u1" 0 0 [] ⟨"u1", 0, 0, false⟩ rfl
    (by rw [htr]; exact List.mem_singleton.mpr rfl)

/-- The zone fetch does not depend on the webhook-insert and queue-push
outcomes. -/
theorem getActive_ignores_webhook_fields (env : Env) (w : Option Int) (q : Bool) :
    getActiveIncidents { env with webhookCreate := w, queuePushOk := q } =
      getActiveIncidents env := by
  cases env
  rfl

/-- A successful hot path with at least one match returns
`(true, matches)` whatever the webhook-insert and queue-push outcomes. -/
theorem checkLocation_result_of_match (env : Env) (uid : String) (lat lng : ℝ)
    (zones : List Incident) (cid : Int)
    (h1 : ¬ trimSpace uid = "")
    (h2 : ¬(lat < -90 ∨ lat > 90 ∨ lng < -180 ∨ lng > 180))
    (hz : (getActiveIncidents env).1 = Except.ok zones)
    (hcc : env.checkCreate = some cid)
    (hm : findMatchingIncidents lat lng zones ≠ []) :
    (CheckLocation env uid lat lng).result =
      Except.ok (true, findMatchingIncidents lat lng zones) := by
  have hA : decide (0 < (findMatchingIncidents lat lng zones).length) = true := by
    rw [decide_eq_true_eq, List.length_pos_iff_ne_nil]
    exact hm
  simp only [CheckLocation, if_neg h1, if_neg h2]
  rcases hg : getActiveIncidents env with ⟨res, tr⟩
  rw [hg] at hz
  simp at hz
  subst hz
  simp [checkLocationBody, hg, hcc, hA]

/-- C7: once the check row is saved and at least one zone matches, a
failed outbox insert or queue publish leaves the returned triple
unchanged: the call returns `(true, matches)` with no error. -/
theorem webhook_failure_not_propagated (env : Env) (uid : String) (lat lng : ℝ)
    (zones : List Incident) (cid : Int)
    (h1 : ¬ trimSpace uid = "")
    (h2 : ¬(lat < -90 ∨ lat > 90 ∨ lng < -180 ∨ lng > 180))
    (hz : (getActiveIncidents env).1 = Except.ok zones)
    (hcc : env.checkCreate = some cid)
    (hm : findMatchingIncidents lat lng zones ≠ []) :
    (CheckLocation env uid lat lng).result =
      Except.ok (true, findMatchingIncidents lat lng zones)
    ∧ ∀ w q, (CheckLocation { env with webhookCreate := w, queuePushOk := q }
        uid lat lng).result =
      Except.ok (true, findMatchingIncidents lat lng zones) := by
  refine ⟨checkLocation_result_of_match env uid lat lng zones cid
    h1 h2 hz hcc hm, ?_⟩
  intro w q
  apply checkLocation_result_of_match _ uid lat lng zones cid h1 h2 _ _ hm
  · rw [getActive_ignores_webhook_fields]
    exact hz
  · exact hcc

/-- The haversine distance from the origin to itself is zero. -/
theorem haversine_origin : haversineDist 0 0 0 0 = 0 := by
  norm_num [haversineDist, atan2, earthRadius_m, Real.sqrt_zero,
    Real.sqrt_one, Real.arctan_zero]

/-- The sample zone matches a query at the origin. -/
theorem findMatching_origin : findMatchingIncidents 0 0 [zSample] = [zSample] := by
  have h : isPointInRadius 0 0 zSample.latitude zSample.longitude zSample.radius := by
    show haversineDist 0 0 zSample.latitude zSample.longitude ≤ zSample.radius
    rw [show zSample.latitude = 0 from rfl, show zSample.longitude = 0 from rfl,
      haversine_origin]
    norm_num [zSample]
  simp [findMatchingIncidents, h]

theorem webhook_failure_not_propagated_witness :
    (CheckLocation envHit "u1" 0 0).result =
      Except.ok (true, findMatchingIncidents 0 0 [zSample]) :=
  (webhook_failure_not_propagated envHit "u1" 0 0 [zSample] 1
    (by decide) (by norm_num) rfl rfl
    (by rw [findMatching_origin]; exact List.cons_ne_nil _ _)).1

end GeoNotify
